import Mathlib

/-!
Verification development for a configuration-driven web scraper
(`src/scraper.py`).  The Python module is shallowly embedded: HTTP, the
HTML parser, the Selenium driver and the JSON endpoint are modelled as
explicit environments (`StaticEnv`, `DynWorld`, `ApiEnv`), while every
piece of control flow of the scraper itself — field extraction, the
"any data found" guard, variation enumeration, pagination, retry logic
and the per-site orchestrator loop — is translated function by function
from the source.  Caught Python exceptions appear as `Option`/branching;
exceptions that escape a function appear as `Except`.
-/

/-- Python `s.lower()` (per-character lowercasing).  Spelled out over
the character list so that terms built from it reduce inside the
kernel. -/
def pyLower (s : String) : String := String.mk (s.data.map Char.toLower)

/-- Python `s.strip()`: drop leading and trailing whitespace. -/
def pyStrip (s : String) : String :=
  String.mk (((s.data.dropWhile Char.isWhitespace).reverse.dropWhile Char.isWhitespace).reverse)

/-- A field value of an extraction record: Python `None`, a scalar string,
a list of strings, or a list of optional strings (the static `images`
path stores `el.get("src")`, which may be `None` per element). -/
inductive Value
  | null
  | str (s : String)
  | strList (l : List String)
  | optList (l : List (Option String))
deriving DecidableEq, Repr

/-- One extraction record: the Python dict `{field-name: value}`,
in insertion order. -/
abbrev Record := List (String × Value)

/-- A BeautifulSoup element, as far as the scraper inspects it:
its (recursively concatenated) text and its attributes. -/
structure Element where
  text : String
  attrs : List (String × String)
deriving DecidableEq, Repr

/-- `el.get(attr)`: attribute lookup, `None` when absent. -/
def Element.get (el : Element) (attr : String) : Option String :=
  el.attrs.lookup attr

/-- A parsed static page: `soup.select(selector)` returns the matching
elements in DOM encounter order. -/
structure StaticPage where
  select : String → List Element

/-- Environment for the static walker: `requests.get` (with
`raise_for_status` and parsing folded in; `none` models a raised
`RequestException`) and `urllib.parse.urljoin`. -/
structure StaticEnv where
  fetch : String → Option StaticPage
  urljoin : String → String → String

/-- Extraction of one field from a non-empty element list, static path
(scraper.py lines 61-65).  Reserved names (`images`/`colors`/`sizes`,
case-insensitive) yield a list; otherwise the trimmed non-empty texts
collapse to a scalar when there are fewer than two. -/
def staticFieldValue (name : String) (elements : List Element) : Value :=
  if pyLower name = "images" ∨ pyLower name = "colors" ∨ pyLower name = "sizes" then
    if pyLower name = "images" then
      Value.optList (elements.map (fun el => el.get "src"))
    else
      Value.strList (elements.map (fun el => pyStrip el.text))
  else
    let texts := (elements.map (fun el => pyStrip el.text)).filter (fun t => t ≠ "")
    if texts.length > 1 then Value.strList texts
    else
      match texts with
      | t :: _ => Value.str t
      | [] => Value.null

/-- One step of the static field loop (scraper.py lines 57-67): the
accumulator is `(data, any_data_found)`; `any_data_found` is set as soon
as a selector matches at least one element. -/
def staticFieldStep (page : StaticPage) (acc : Record × Bool) (p : String × String) :
    Record × Bool :=
  let elements := page.select p.2
  if elements.isEmpty then (acc.1 ++ [(p.1, Value.null)], acc.2)
  else (acc.1 ++ [(p.1, staticFieldValue p.1 elements)], true)

/-- The static per-page extraction (scraper.py lines 55-67): one record
plus the `any_data_found` flag. -/
def staticExtractRecord (page : StaticPage) (selectors : List (String × String)) :
    Record × Bool :=
  selectors.foldl (staticFieldStep page) ([], false)

/-- Python truthiness of an optional string (used for
`if pagination_selector:` etc.): `None` and `""` are falsy. -/
def strTruthy? : Option String → Bool
  | none => false
  | some s => !(s == "")

/-- The static pagination step (scraper.py lines 71-78): `select_one` on
the pagination selector, then `urljoin` of the original url with a
truthy `href`; any miss sets the next url to `None`. -/
def staticNextUrl (env : StaticEnv) (origUrl : String) (pag : Option String)
    (page : StaticPage) : Option String :=
  match pag with
  | some p =>
    if p == "" then none
    else
      match (page.select p).head? with
      | some nextEl =>
        match nextEl.get "href" with
        | some href => if href == "" then none else some (env.urljoin origUrl href)
        | none => none
      | none => none
  | none => none

/-- Final state of the static page walk: accumulated records, number of
loop iterations performed (`pages_scraped`), and the url variable at
exit. -/
structure StaticWalk where
  results : List Record
  pages_scraped : Nat
  finalUrl : Option String
deriving Repr

/-- The static walker loop (scraper.py lines 45-80).  The fuel argument
is `limit - pages_scraped`, so the loop guard `pages_scraped < limit`
is fuel reaching zero; a fetch failure breaks out of the loop. -/
def scrape_staticGo (env : StaticEnv) (url : String) (selectors : List (String × String))
    (pag : Option String) : Option String → Nat → List Record → Nat → StaticWalk
  | none, _, acc, pages => ⟨acc, pages, none⟩
  | some u, 0, acc, pages => ⟨acc, pages, some u⟩
  | some u, fuel + 1, acc, pages =>
    match env.fetch u with
    | none => ⟨acc, pages, some u⟩
    | some page =>
      let r := staticExtractRecord page selectors
      let acc2 := if r.2 then acc ++ [r.1] else acc
      scrape_staticGo env url selectors pag (staticNextUrl env url pag page) fuel acc2 (pages + 1)

/-- `scrape_static` (scraper.py lines 40-83): walk from `url` for at most
`limit` pages and return the accumulated records. -/
def scrape_static (env : StaticEnv) (url : String) (selectors : List (String × String))
    (pag : Option String) (limit : Int) : List Record :=
  (scrape_staticGo env url selectors pag (some url) limit.toNat [] 0).results

/-! ### Dynamic scraping (Selenium driver model) -/

/-- The `<img>` child a container element may have (dynamic `images`
extraction looks it up with `find_element(By.TAG_NAME, "img")`). -/
structure ImgTag where
  src : Option String
deriving DecidableEq, Repr

/-- A WebElement as far as the scraper inspects it: its trimmed-to-be
text (`el.text`) and its optional `<img>` descendant (`none` makes
`find_element` raise `NoSuchElementException`). -/
structure DynElement where
  text : String
  img : Option ImgTag
deriving DecidableEq, Repr

/-- The browser world: page state is an abstract `Nat`.  `navigate`
is `driver.get` (`none` = raised WebDriverException), `clickResult` is
`execute_script("arguments[0].click()", el)` (`none` = the script call
raised, e.g. on a stale element; `some st` = the page state after the
click), `isStale` decides `EC.staleness_of`, `findElements` is
`find_elements(By.CSS_SELECTOR, ·)` in DOM order, `currentUrl` is
`driver.current_url`, and `initBrowser` is whether the `webdriver.X`
constructor of that browser kind succeeds. -/
structure DynWorld where
  initBrowser : String → Bool
  navigate : String → Option Nat
  findElements : Nat → String → List DynElement
  isStale : Nat → DynElement → Bool
  clickResult : Nat → DynElement → Option Nat
  currentUrl : Nat → String

/-- The ready-marker selector hard-coded in `scrape_dynamic`. -/
def ready_marker : String := "h1.ty-product-block-title bdi"

/-- A Selenium `expected_conditions` object, as built in the source. -/
inductive ECCond
  | staleness_of (el : DynElement)
  | presence_of_element_located (sel : String)
deriving DecidableEq, Repr

/-- Python truthiness of an EC condition object: these are ordinary
callables, hence always truthy. -/
def condTruthy : ECCond → Bool := fun _ => true

/-- Python `a or b` on two EC condition objects: returns `a` when `a`
is truthy, i.e. always `a` — only the first condition ever reaches
`WebDriverWait.until`. -/
def pyOr (a b : ECCond) : ECCond :=
  if condTruthy a then a else b

/-- Whether an EC condition holds in a page state (this is what
`WebDriverWait(...).until` succeeds on inside its timeout). -/
def evalCond (w : DynWorld) (st : Nat) : ECCond → Bool
  | ECCond.staleness_of el => w.isStale st el
  | ECCond.presence_of_element_located sel => !(w.findElements st sel).isEmpty

/-- Extraction of one field value from a non-empty element list, dynamic
path (scraper.py lines 110-116 and 162-168).  The `images` list
comprehension calls `find_element("img")` per element, which raises when
an element has no image child; the raise is caught by the surrounding
per-field handler and the field becomes null. -/
def dynImagesValue (elements : List DynElement) : Option (List String) :=
  if elements.all (fun el => el.img.isSome) then
    some (elements.filterMap (fun el =>
      match el.img with
      | some i =>
        match i.src with
        | some s => if s == "" then none else some s
        | none => none
      | none => none))
  else none

/-- Dynamic field value for a non-empty match list.  Unlike the static
path, the non-reserved branch keeps only the first trimmed non-empty
text (`texts[0] if texts else None`). -/
def dynFieldValue (name : String) (elements : List DynElement) : Value :=
  if pyLower name = "images" then
    match dynImagesValue elements with
    | some l => Value.strList l
    | none => Value.null
  else if pyLower name = "colors" ∨ pyLower name = "sizes" then
    Value.strList ((elements.map (fun el => pyStrip el.text)).filter (fun t => t ≠ ""))
  else
    match (elements.map (fun el => pyStrip el.text)).filter (fun t => t ≠ "") with
    | [] => Value.null
    | t :: _ => Value.str t

/-- One dynamic field: `(matched-any-elements, value)`. -/
def extractFieldDyn (w : DynWorld) (st : Nat) (name sel : String) : Bool × Value :=
  let elements := w.findElements st sel
  if elements.isEmpty then (false, Value.null)
  else (true, dynFieldValue name elements)

/-- One step of the dynamic field loop (scraper.py lines 103-121):
the two variation-trigger names are skipped by exact match. -/
def dynFieldStep (w : DynWorld) (st : Nat) (acc : Record × Bool) (p : String × String) :
    Record × Bool :=
  if p.1 = "color_variation" ∨ p.1 = "size_variation" then acc
  else
    let fv := extractFieldDyn w st p.1 p.2
    (acc.1 ++ [(p.1, fv.2)], acc.2 || fv.1)

/-- Dynamic extraction over all non-trigger selectors in page state
`st`, with the `any_data_found` flag. -/
def dynExtractRecord (w : DynWorld) (st : Nat) (selectors : List (String × String)) :
    Record × Bool :=
  selectors.foldl (dynFieldStep w st) ([], false)

/-- Result of `execute_script(click)` followed by
`WebDriverWait(...).until(EC.staleness_of(el) or EC.presence_of_element_located(ready))`:
`ok st` when both succeed, `failed st` when either raised (caught by the
source with `continue`); `st` is the driver state afterwards. -/
inductive ClickWaitRes
  | ok (st : Nat)
  | failed (st : Nat)
deriving DecidableEq, Repr

/-- Click a variation element and run the post-click wait, exactly as
coded: the condition handed to `until` is `pyOr staleness presence`. -/
def clickAndWait (w : DynWorld) (st : Nat) (el : DynElement) : ClickWaitRes :=
  match w.clickResult st el with
  | none => ClickWaitRes.failed st
  | some st2 =>
    if evalCond w st2 (pyOr (ECCond.staleness_of el) (ECCond.presence_of_element_located ready_marker))
    then ClickWaitRes.ok st2
    else ClickWaitRes.failed st2

/-- Python-level errors that escape a scraper function. -/
inductive PyErr
  | valueErrorUnsupportedBrowser
  | webDriverInitError
  | navigateError
  | staleElementError
  | keyErrorJsonPath
  | attributeErrorJsonGet
deriving DecidableEq, Repr

/-- The label an axis contributes to a variation record
(`el.text.strip() if el else "N/A"`, scraper.py lines 151-152).  For a
real element this is a live `el.text` WebDriver call made OUTSIDE any
try: on an element that is stale in the current driver state it raises
`StaleElementReferenceException`, which escapes the page-walk loop.
The `None` placeholder reads nothing and yields the literal `"N/A"`. -/
def axisLabel (w : DynWorld) (st : Nat) : Option DynElement → Except PyErr String
  | some el =>
    if w.isStale st el then Except.error PyErr.staleElementError
    else Except.ok (pyStrip el.text)
  | none => Except.ok "N/A"

/-- A variation record (scraper.py lines 150-173): the dict literal
evaluates the color label first, then the size label — either live
read may raise and escape — then the non-trigger fields are extracted;
the flag is `any_var_data_found`, which the seeded labels do not
set. -/
def varRecord (w : DynWorld) (st : Nat) (selectors : List (String × String))
    (c? s? : Option DynElement) : Except PyErr (Record × Bool) :=
  match axisLabel w st c? with
  | Except.error e => Except.error e
  | Except.ok lc =>
    match axisLabel w st s? with
    | Except.error e => Except.error e
    | Except.ok ls =>
      let fields := dynExtractRecord w st selectors
      Except.ok (("variation_color", Value.str lc) ::
                 ("variation_size", Value.str ls) :: fields.1,
                 fields.2)

/-- Inner (size) loop step: click-and-wait for a real size element
(`continue` on a caught click/wait failure), then build and
conditionally append the variation record.  A raise from the record's
live label reads is not caught anywhere, so the accumulator carries the
escaping error past the remaining iterations.  The running value is
`(driver-state, results)`. -/
def sizeStep (w : DynWorld) (selectors : List (String × String)) (c? : Option DynElement)
    (acc : Except PyErr (Nat × List Record)) (s? : Option DynElement) :
    Except PyErr (Nat × List Record) :=
  match acc with
  | Except.error e => Except.error e
  | Except.ok (st, recs) =>
    match s? with
    | none =>
      match varRecord w st selectors c? none with
      | Except.error e => Except.error e
      | Except.ok vr => Except.ok (st, if vr.2 then recs ++ [vr.1] else recs)
    | some s =>
      match clickAndWait w st s with
      | ClickWaitRes.failed st2 => Except.ok (st2, recs)
      | ClickWaitRes.ok st2 =>
        match varRecord w st2 selectors c? (some s) with
        | Except.error e => Except.error e
        | Except.ok vr => Except.ok (st2, if vr.2 then recs ++ [vr.1] else recs)

/-- Outer (color) loop step: click-and-wait for a real color element
(`continue` skips its whole size loop), then run the size loop; an
escaping error from a label read passes through. -/
def colorStep (w : DynWorld) (selectors : List (String × String))
    (sizeEls : List (Option DynElement)) (acc : Except PyErr (Nat × List Record))
    (c? : Option DynElement) : Except PyErr (Nat × List Record) :=
  match acc with
  | Except.error e => Except.error e
  | Except.ok (st, recs) =>
    match c? with
    | none => sizeEls.foldl (sizeStep w selectors none) (Except.ok (st, recs))
    | some c =>
      match clickAndWait w st c with
      | ClickWaitRes.failed st2 => Except.ok (st2, recs)
      | ClickWaitRes.ok st2 =>
        sizeEls.foldl (sizeStep w selectors (some c)) (Except.ok (st2, recs))

/-- `find_elements(sel) if sel else [None]` (scraper.py lines 129-130):
the variation axis elements, or a single `None` placeholder when that
axis has no truthy selector. -/
def variationElems (w : DynWorld) (st : Nat) (sel : Option String) :
    List (Option DynElement) :=
  match sel with
  | some s => if s == "" then [none] else (w.findElements st s).map some
  | none => [none]

/-- The variation enumeration block (scraper.py lines 126-175), entered
only when either trigger selector is truthy.  Returns the driver state
afterwards and the variation records in emission order, or the
uncaught error a live label read raised. -/
def scrapeVariations (w : DynWorld) (st : Nat) (selectors : List (String × String)) :
    Except PyErr (Nat × List Record) :=
  let csel := List.lookup "color_variation" selectors
  let ssel := List.lookup "size_variation" selectors
  if strTruthy? csel || strTruthy? ssel then
    let colorEls := variationElems w st csel
    let sizeEls := variationElems w st ssel
    colorEls.foldl (colorStep w selectors sizeEls) (Except.ok (st, []))
  else Except.ok (st, [])

/-- One dynamic page body after the ready wait succeeded: base record
(if any data found) followed by the variation records, plus the driver
state for the pagination step.  An error escaping the variation block
escapes the page body (the base record appended to `results` is lost
with the rest, since the raise prevents `scrape_dynamic` from
returning). -/
def scrapeDynamicPage (w : DynWorld) (st : Nat) (selectors : List (String × String)) :
    Except PyErr (Nat × List Record) :=
  let base := dynExtractRecord w st selectors
  let baseRecs := if base.2 then [base.1] else []
  match scrapeVariations w st selectors with
  | Except.error e => Except.error e
  | Except.ok vout => Except.ok (vout.1, baseRecs ++ vout.2)

/-- Dynamic pagination (scraper.py lines 177-187): find the next
trigger, click it, wait for `EC.url_changes(current_url)`; any raise in
the block (no element, failed click, timeout) sets the url to `None`. -/
def dynNextUrl (w : DynWorld) (st : Nat) (pag : Option String) (current : String) :
    Option String × Nat :=
  match pag with
  | some p =>
    if p == "" then (none, st)
    else
      match (w.findElements st p).head? with
      | none => (none, st)
      | some btn =>
        match w.clickResult st btn with
        | none => (none, st)
        | some st2 =>
          if w.currentUrl st2 = current then (none, st2)
          else (some (w.currentUrl st2), st2)
  | none => (none, st)

/-- Output of the dynamic while loop: the records (or the exception
that escaped it) and the number of iterations (`pages_scraped`). -/
structure DynLoopOut where
  result : Except PyErr (List Record)
  pages : Nat
deriving Repr

/-- The dynamic page-walk loop (scraper.py lines 92-190).  Fuel is
`limit - pages_scraped`.  A ready-marker timeout breaks (keeping the
records so far); a raise from `driver.get` or from a variation label
read escapes the loop before the counter is incremented. -/
def dynLoop (w : DynWorld) (selectors : List (String × String)) (pag : Option String) :
    Nat → Option String → List Record → Nat → DynLoopOut
  | 0, _, acc, pages => ⟨Except.ok acc, pages⟩
  | _ + 1, none, acc, pages => ⟨Except.ok acc, pages⟩
  | fuel + 1, some u, acc, pages =>
    match w.navigate u with
    | none => ⟨Except.error PyErr.navigateError, pages⟩
    | some st =>
      if (w.findElements st ready_marker).isEmpty then ⟨Except.ok acc, pages⟩
      else
        match scrapeDynamicPage w st selectors with
        | Except.error e => ⟨Except.error e, pages⟩
        | Except.ok pout =>
          let nxt := dynNextUrl w pout.1 pag u
          dynLoop w selectors pag fuel nxt.1 (acc ++ pout.2) (pages + 1)

/-- `get_driver` (scraper.py lines 22-36): dispatch on
`browser.lower()`; an unsupported kind raises `ValueError`, a failing
constructor re-raises its error — both after logging. -/
def get_driver (w : DynWorld) (browser : String) : Except PyErr Unit :=
  if pyLower browser = "chrome" then
    if w.initBrowser "chrome" then Except.ok () else Except.error PyErr.webDriverInitError
  else if pyLower browser = "firefox" then
    if w.initBrowser "firefox" then Except.ok () else Except.error PyErr.webDriverInitError
  else if pyLower browser = "safari" then
    if w.initBrowser "safari" then Except.ok () else Except.error PyErr.webDriverInitError
  else Except.error PyErr.valueErrorUnsupportedBrowser

/-- Driver lifecycle events of one `scrape_dynamic` call. -/
inductive DrvEvent
  | acquire
  | quitDriver
deriving DecidableEq, Repr

/-- Outcome of `scrape_dynamic`: the loop result (an escaping exception
is re-raised after the `finally`), the page count, and the driver
lifecycle event trace. -/
structure DynOutcome where
  result : Except PyErr (List Record)
  pages : Nat
  events : List DrvEvent
deriving Repr

/-- `scrape_dynamic` (scraper.py lines 85-195): acquire the driver (a
raise here escapes before the `try`), run the loop inside
`try ... finally: driver.quit()` — the quit event is recorded whether
the loop returned or raised. -/
def scrape_dynamic (w : DynWorld) (url : String) (selectors : List (String × String))
    (pag : Option String) (limit : Int) (browser : String) : DynOutcome :=
  match get_driver w browser with
  | Except.error e => ⟨Except.error e, 0, []⟩
  | Except.ok _ =>
    let out := dynLoop w selectors pag limit.toNat (some url) [] 0
    ⟨out.result, out.pages, [DrvEvent.acquire, DrvEvent.quitDriver]⟩

/-! ### API scraping -/

/-- A parsed JSON value (`response.json()`). -/
inductive Json
  | dict (entries : List (String × Json))
  | arr (elems : List Json)
  | str (s : String)
  | num (n : Int)
  | bool (b : Bool)
  | null

/-- Key lookup in a JSON dict's entry list (first binding). -/
def jsonFind : List (String × Json) → String → Option Json
  | [], _ => none
  | (k, v) :: rest, key => if k = key then some v else jsonFind rest key

/-- `for key in json_path: data = data.get(key, {})` — each step
defaults a missing key to an empty dict; calling `.get` on a non-dict
raises `AttributeError`, which `except RequestException` does not catch
and therefore escapes `scrape_api`. -/
def descendPath : Json → List String → Except PyErr Json
  | data, [] => Except.ok data
  | data, key :: rest =>
    match data with
    | Json.dict entries =>
      descendPath (match jsonFind entries key with
                   | some v => v
                   | none => Json.dict []) rest
    | _ => Except.error PyErr.attributeErrorJsonGet

/-- `[data] if isinstance(data, dict) else data`: wrap a dict in a
one-element list, return anything else unchanged. -/
def wrapApiData : Json → Json
  | Json.dict es => Json.arr [Json.dict es]
  | j => j

/-- Outcome of one HTTP attempt: the parsed body, or a raised (and
caught) `RequestException`. -/
inductive ApiAttempt
  | success (body : Json)
  | reqFail

/-- The endpoint environment: the outcome of attempt `i` of a GET on a
url with given headers. -/
structure ApiEnv where
  attempt : String → List (String × String) → Nat → ApiAttempt

/-- Log calls `scrape_api` makes. -/
inductive ApiLog
  | warnAttemptFailed (attempt : Nat)
  | errorExhausted
  | infoSuccess
deriving DecidableEq, Repr

/-- What a `scrape_api` call did: its return (or escaping error), the
number of HTTP attempts performed, the `time.sleep` durations, and the
log calls. -/
structure ApiRun where
  result : Except PyErr (Option Json)
  attemptsMade : Nat
  sleeps : List Nat
  logs : List ApiLog

/-- The retry loop of `scrape_api` (scraper.py lines 198-212):
`attempt` is the loop variable of `for attempt in range(retries)` and
`remaining` the iterations left (`retries - attempt`).  On a request
failure at the last attempt (`attempt == retries - 1`) return `None`;
otherwise `time.sleep(2)` — a fixed, non-growing backoff — and retry.
Falling off the loop (only possible when `range(retries)` is empty)
returns `None` with nothing attempted, slept or logged. -/
def apiGo (env : ApiEnv) (url : String) (jp : List String)
    (headers : List (String × String)) (retries : Nat) :
    Nat → Nat → List Nat → List ApiLog → Nat → ApiRun
  | _, 0, sleeps, logs, made => ⟨Except.ok none, made, sleeps, logs⟩
  | attempt, rem + 1, sleeps, logs, made =>
    match env.attempt url headers attempt with
    | ApiAttempt.success body =>
      match descendPath body jp with
      | Except.error e => ⟨Except.error e, made + 1, sleeps, logs⟩
      | Except.ok data =>
        ⟨Except.ok (some (wrapApiData data)), made + 1, sleeps, logs ++ [ApiLog.infoSuccess]⟩
    | ApiAttempt.reqFail =>
      let logs2 := logs ++ [ApiLog.warnAttemptFailed attempt]
      if attempt = retries - 1 then
        ⟨Except.ok none, made + 1, sleeps, logs2 ++ [ApiLog.errorExhausted]⟩
      else
        apiGo env url jp headers retries (attempt + 1) rem (sleeps ++ [2]) logs2 (made + 1)

/-- `scrape_api` (scraper.py lines 197-212). -/
def scrape_api (env : ApiEnv) (url : String) (jp : List String)
    (headers : List (String × String)) (retries : Int) : ApiRun :=
  apiGo env url jp headers retries.toNat 0 retries.toNat [] [] 0

/-! ### Run orchestrator -/

/-- One site descriptor from the config file; `none` models an absent
key (`"type"` is spelled `type` as a field, accessed as `site["type"]`
in the source). -/
structure Site where
  url : Option String
  type : Option String
  selectors : Option (List (String × String))
  pagination : Option String
  limit : Option Int
  browser : Option String
  json_path : Option (List String)
  api_key : Option String
  name : Option String

/-- The required-key validation of the orchestrator loop
(scraper.py line 228): `all(key in site for key in ["url", "type",
"selectors"])` — and nothing else. -/
def requiredKeysOk (site : Site) : Bool :=
  site.url.isSome && site.type.isSome && site.selectors.isSome

/-- Python truthiness of a JSON value (`if data:` on the api return). -/
def jsonTruthy : Json → Bool
  | Json.dict es => !es.isEmpty
  | Json.arr l => !l.isEmpty
  | Json.str s => !(s == "")
  | Json.num n => decide (n ≠ 0)
  | Json.bool b => b
  | Json.null => false

/-- What the loop body did for one site (when no exception escaped). -/
inductive SiteOutcome
  | invalidConfig
  | unknownType
  | wrote (recs : List Record)
  | wroteApi (data : Json)
  | noData

/-- The body of the orchestrator loop for one site (scraper.py lines
228-261).  There is no exception handler around the dispatch: an error
value here escapes into `run_scraper`'s loop.  For a `type: api` site,
`site["json_path"]` is an unconditional key access (line 244) and
raises `KeyError` when the key is missing; `scrape_api` is called with
its default `retries = 3`. -/
def processSite (w : DynWorld) (senv : StaticEnv) (aenv : ApiEnv) (site : Site) :
    Except PyErr SiteOutcome :=
  match site.url, site.type, site.selectors with
  | some url, some ty, some sels =>
    if ty = "static" then
      let data := scrape_static senv url sels site.pagination (site.limit.getD 5)
      Except.ok (if data.isEmpty then SiteOutcome.noData else SiteOutcome.wrote data)
    else if ty = "dynamic" then
      match (scrape_dynamic w url sels site.pagination (site.limit.getD 5)
              (site.browser.getD "chrome")).result with
      | Except.error e => Except.error e
      | Except.ok data =>
        Except.ok (if data.isEmpty then SiteOutcome.noData else SiteOutcome.wrote data)
    else if ty = "api" then
      match site.json_path with
      | none => Except.error PyErr.keyErrorJsonPath
      | some jp =>
        let headers :=
          match site.api_key with
          | some k => [("Authorization", "Bearer " ++ k)]
          | none => []
        match (scrape_api aenv url jp headers 3).result with
        | Except.error e => Except.error e
        | Except.ok none => Except.ok SiteOutcome.noData
        | Except.ok (some data) =>
          Except.ok (if jsonTruthy data then SiteOutcome.wroteApi data else SiteOutcome.noData)
    else Except.ok SiteOutcome.unknownType
  | _, _, _ => Except.ok SiteOutcome.invalidConfig

/-- The orchestrator loop over the configured sites (scraper.py lines
227-261): sequential, with no per-site exception handler — the first
escaping exception aborts the remaining sites. -/
def run_sites (w : DynWorld) (senv : StaticEnv) (aenv : ApiEnv) :
    List Site → Except PyErr (List SiteOutcome)
  | [] => Except.ok []
  | site :: rest =>
    match processSite w senv aenv site with
    | Except.error e => Except.error e
    | Except.ok o =>
      match run_sites w senv aenv rest with
      | Except.error e => Except.error e
      | Except.ok os => Except.ok (o :: os)

/-! ### Concrete test environments

Small closed worlds used to exercise the embedding at concrete inputs.
Each claim gets its own instances so they stand alone. -/

/-- A browser world whose driver constructors all fail. -/
def wC1 : DynWorld :=
  ⟨fun _ => false, fun _ => some 0, fun _ _ => [], fun _ _ => true, fun _ _ => some 0, fun _ => ""⟩

/-- A page whose `h1` holds the text `A`. -/
def pageC1 : StaticPage :=
  ⟨fun sel => if sel = "h1" then [⟨"A", []⟩] else []⟩

/-- A static web serving `pageC1` at every url. -/
def senvC1 : StaticEnv := ⟨fun _ => some pageC1, fun _ href => href⟩

/-- An API endpoint that always fails. -/
def aenvC1 : ApiEnv := ⟨fun _ _ _ => ApiAttempt.reqFail⟩

/-- A valid dynamic site whose (default `chrome`) driver will fail to
initialize in `wC1`. -/
def dynSiteC1 : Site := ⟨some "https://d.test", some "dynamic", some [], none, none, none, none, none, none⟩

/-- A valid static site that scrapes one record from `senvC1`. -/
def statSiteC1 : Site :=
  ⟨some "https://s.test", some "static", some [("title", "h1")], none, some 1, none, none, none, none⟩

/-- A site missing all required keys. -/
def invalidSiteC1 : Site := ⟨none, none, none, none, none, none, none, none, none⟩

/-- A browser world where `h1` matches two elements with texts `A`
and `B`. -/
def wC2 : DynWorld :=
  ⟨fun _ => true, fun _ => some 0,
   fun _ sel => if sel = "h1" then [⟨"A", none⟩, ⟨"B", none⟩] else [],
   fun _ _ => true, fun _ _ => some 0, fun _ => ""⟩

/-- A static page where `h1` matches two elements with texts `A`
and `B`. -/
def pageC2 : StaticPage :=
  ⟨fun sel => if sel = "h1" then [⟨"A", []⟩, ⟨"B", []⟩] else []⟩

/-- The clicked color element of the C3 scenario. -/
def eC3 : DynElement := ⟨"Red", none⟩

/-- A browser world modelling an in-place DOM update: after the click
(state 1) the old element is NOT stale, but the ready marker is
present. -/
def wC3 : DynWorld :=
  ⟨fun _ => true, fun _ => some 0,
   fun _ sel => if sel = ready_marker then [⟨"T", none⟩] else [],
   fun _ _ => false, fun _ _ => some 1, fun _ => ""⟩

/-- A page whose `h1` matches one element containing only whitespace. -/
def pageC4 : StaticPage :=
  ⟨fun sel => if sel = "h1" then [⟨"   ", []⟩] else []⟩

/-- A static web serving `pageC4` at every url. -/
def envC4 : StaticEnv := ⟨fun _ => some pageC4, fun _ href => href⟩

/-- A browser world with the ready marker present, 2 color and 3 size
variation elements, where every click succeeds and — as the
staleness-only wait demands for success — every clicked element is
stale afterwards (each variation trigger replaces the DOM, the
full-page-reload scenario the wait was written for). -/
def wC5 : DynWorld :=
  ⟨fun _ => true, fun _ => some 0,
   fun _ sel =>
     if sel = "h1" then [⟨"T", none⟩]
     else if sel = ".col" then [⟨"Red", none⟩, ⟨"Blue", none⟩]
     else if sel = ".siz" then [⟨"S", none⟩, ⟨"M", none⟩, ⟨"L", none⟩]
     else if sel = ready_marker then [⟨"T", none⟩]
     else [],
   fun _ _ => true, fun st _ => some st, fun _ => ""⟩

/-- Selector config with one plain field and both variation triggers. -/
def selsC5 : List (String × String) :=
  [("title", "h1"), ("color_variation", ".col"), ("size_variation", ".siz")]

/-- An API endpoint failing on every attempt. -/
def aenvC6fail : ApiEnv := ⟨fun _ _ _ => ApiAttempt.reqFail⟩

/-- An API endpoint failing on attempt 0 and succeeding from
attempt 1 on. -/
def aenvC6succ : ApiEnv :=
  ⟨fun _ _ i => if i = 0 then ApiAttempt.reqFail else ApiAttempt.success (Json.dict [])⟩

/-- A static page with an `h1` but no pagination link. -/
def pageC7 : StaticPage :=
  ⟨fun sel => if sel = "h1" then [⟨"A", []⟩] else []⟩

/-- A static web serving `pageC7` at every url. -/
def senvC7 : StaticEnv := ⟨fun _ => some pageC7, fun _ href => href⟩

/-- A browser world where navigation always works and the ready marker
is always present, with no other elements. -/
def wC7 : DynWorld :=
  ⟨fun _ => true, fun _ => some 0,
   fun _ sel => if sel = ready_marker then [⟨"R", none⟩] else [],
   fun _ _ => true, fun st _ => some st, fun _ => "u"⟩

/-- Selector config for the C7 walk. -/
def selsC7 : List (String × String) := [("t", "h1")]

/-- A browser world whose driver initializes but whose first navigation
raises, exercising the exceptional exit path of the page-walk loop. -/
def wC8 : DynWorld :=
  ⟨fun _ => true, fun _ => none, fun _ _ => [], fun _ _ => true, fun _ _ => some 0, fun _ => ""⟩

/-- An API endpoint (never reached) for the zero-retries run. -/
def aenvC9 : ApiEnv := ⟨fun _ _ _ => ApiAttempt.success Json.null⟩

/-- Trivial worlds for the C10 orchestrator call. -/
def wC10 : DynWorld :=
  ⟨fun _ => true, fun _ => some 0, fun _ _ => [], fun _ _ => true, fun _ _ => some 0, fun _ => ""⟩

/-- A static web with empty pages (not reached by the C10 site). -/
def senvC10 : StaticEnv := ⟨fun _ => some ⟨fun _ => []⟩, fun _ href => href⟩

/-- An API endpoint that would answer (never reached: the KeyError
fires first). -/
def aenvC10 : ApiEnv := ⟨fun _ _ _ => ApiAttempt.success (Json.dict [])⟩

/-- A `type: api` site with `url`, `type` and `selectors` present but
no `json_path` key. -/
def siteC10 : Site :=
  ⟨some "https://a.test", some "api", some [], none, none, none, none, some "k", none⟩

/-- Whether every field of a record is null. -/
def recordAllNull (r : Record) : Bool :=
  r.all (fun p => decide (p.2 = Value.null))

/-- The trimmed non-empty texts of a static selector's matches. -/
def staticTexts (page : StaticPage) (sel : String) : List String :=
  ((page.select sel).map (fun el => pyStrip el.text)).filter (fun t => t ≠ "")

/-- The trimmed non-empty texts of a dynamic selector's matches. -/
def dynTexts (w : DynWorld) (st : Nat) (sel : String) : List String :=
  ((w.findElements st sel).map (fun el => pyStrip el.text)).filter (fun t => t ≠ "")

/-! ### Theorems -/

lemma staticFieldValue_nonreserved (name : String)
    (hres : ¬(pyLower name = "images" ∨ pyLower name = "colors" ∨ pyLower name = "sizes"))
    (elements : List Element) :
    staticFieldValue name elements =
      (match (elements.map (fun el => pyStrip el.text)).filter (fun t => t ≠ "") with
       | [] => Value.null
       | [t] => Value.str t
       | t :: t2 :: rest => Value.strList (t :: t2 :: rest)) := by
  unfold staticFieldValue
  rw [if_neg hres]
  cases h : (elements.map (fun el => pyStrip el.text)).filter (fun t => t ≠ "") with
  | nil => simp [h]
  | cons a l =>
    cases l with
    | nil => simp [h]
    | cons b l2 => simp [h]

lemma dynFieldValue_nonreserved (name : String)
    (hres : ¬(pyLower name = "images" ∨ pyLower name = "colors" ∨ pyLower name = "sizes"))
    (elements : List DynElement) :
    dynFieldValue name elements =
      (match (elements.map (fun el => pyStrip el.text)).filter (fun t => t ≠ "") with
       | [] => Value.null
       | t :: _ => Value.str t) := by
  have h1 : ¬pyLower name = "images" := fun h => hres (Or.inl h)
  have h2 : ¬(pyLower name = "colors" ∨ pyLower name = "sizes") := fun h => hres (Or.inr h)
  unfold dynFieldValue
  rw [if_neg h1, if_neg h2]

/-- C2, amended: in the static path a single non-empty trimmed text
yields that scalar and two or more yield the full list in DOM order,
but in the dynamic path the value is always the first non-empty trimmed
text (scalar), regardless of how many matched. -/
theorem claim_C2_amended (name : String)
    (hres : ¬(pyLower name = "images" ∨ pyLower name = "colors" ∨ pyLower name = "sizes"))
    (page : StaticPage) (sel : String) (w : DynWorld) (st : Nat) :
    (∀ t, staticTexts page sel = [t] →
      staticFieldValue name (page.select sel) = Value.str t)
    ∧ (2 ≤ (staticTexts page sel).length →
      staticFieldValue name (page.select sel) = Value.strList (staticTexts page sel))
    ∧ (extractFieldDyn w st name sel).2 =
        (match dynTexts w st sel with
         | [] => Value.null
         | t :: _ => Value.str t) := by
  refine ⟨?_, ?_, ?_⟩
  · intro t ht
    rw [staticFieldValue_nonreserved name hres]
    simp only [staticTexts] at ht
    rw [ht]
  · intro hlen
    rw [staticFieldValue_nonreserved name hres]
    simp only [staticTexts] at hlen ⊢
    cases h : (List.map (fun el => pyStrip el.text) (page.select sel)).filter (fun t => t ≠ "") with
    | nil => rw [h] at hlen; simp at hlen
    | cons a l =>
      cases l with
      | nil => rw [h] at hlen; simp at hlen
      | cons b l2 => rfl
  · unfold extractFieldDyn
    cases h : w.findElements st sel with
    | nil => simp [dynTexts, h]
    | cons a l =>
      simp only [h, List.isEmpty_cons, Bool.false_eq_true, if_false]
      rw [dynFieldValue_nonreserved name hres]
      simp [dynTexts, h]

/-- C2, counterexample: in the dynamic path a selector matching two
elements with texts `A` and `B` produces the scalar `A`, not the
sequence `[A, B]` the claim requires. -/
theorem claim_C2_counterexample :
    extractFieldDyn wC2 0 "title" "h1" = (true, Value.str "A")
    ∧ extractFieldDyn wC2 0 "title" "h1" ≠ (true, Value.strList ["A", "B"]) := by
  exact ⟨by decide, by decide⟩

/-- C2, witness: the amended statement at a concrete page/world with
two matches for the non-reserved field `title`. -/
theorem claim_C2_witness :
    staticFieldValue "title" (pageC2.select "h1") = Value.strList ["A", "B"]
    ∧ (extractFieldDyn wC2 0 "title" "h1").2 = Value.str "A" := by
  have h := claim_C2_amended "title" (by decide) pageC2 "h1" wC2 0
  exact ⟨(h.2.1 (by decide)).trans (by decide), h.2.2.trans (by decide)⟩

/-- C3: evaluating the wait condition the source builds.  Python `or`
on the two (always truthy) EC objects returns the first, so the wait
handed to `until` is staleness only; in a post-click state where the
old element is not stale but the ready marker is present (an in-place
DOM update), the coded wait fails while the claimed
either-of-two-conditions race would succeed, so the color is skipped. -/
theorem claim_C3_code_eval :
    pyOr (ECCond.staleness_of eC3) (ECCond.presence_of_element_located ready_marker)
      = ECCond.staleness_of eC3
    ∧ evalCond wC3 1
        (pyOr (ECCond.staleness_of eC3) (ECCond.presence_of_element_located ready_marker))
      = false
    ∧ (evalCond wC3 1 (ECCond.staleness_of eC3)
        || evalCond wC3 1 (ECCond.presence_of_element_located ready_marker)) = true
    ∧ clickAndWait wC3 0 eC3 = ClickWaitRes.failed 1 := by
  exact ⟨by decide, by decide, by decide, by decide⟩

lemma extractFieldDyn_found (w : DynWorld) (st : Nat) (name sel : String) :
    (extractFieldDyn w st name sel).1 = !(w.findElements st sel).isEmpty := by
  unfold extractFieldDyn
  cases h : (w.findElements st sel).isEmpty <;> simp [h]

lemma staticExtract_found_aux (page : StaticPage) :
    ∀ (l : List (String × String)) (acc : Record × Bool),
      (l.foldl (staticFieldStep page) acc).2
        = (acc.2 || l.any (fun p => !(page.select p.2).isEmpty)) := by
  intro l
  induction l with
  | nil => intro acc; simp
  | cons p t ih =>
    intro acc
    rw [List.foldl_cons, ih]
    unfold staticFieldStep
    cases h : (page.select p.2).isEmpty <;> simp [h]

lemma dynExtract_found_aux (w : DynWorld) (st : Nat) :
    ∀ (l : List (String × String)) (acc : Record × Bool),
      (l.foldl (dynFieldStep w st) acc).2
        = (acc.2 || l.any (fun p =>
            !(p.1 = "color_variation" || p.1 = "size_variation")
            && !(w.findElements st p.2).isEmpty)) := by
  intro l
  induction l with
  | nil => intro acc; simp
  | cons p t ih =>
    intro acc
    rw [List.foldl_cons, ih]
    unfold dynFieldStep
    by_cases h : p.1 = "color_variation" ∨ p.1 = "size_variation"
    · rw [if_pos h]
      rcases h with h | h <;> simp [h]
    · rw [if_neg h]
      push_neg at h
      simp [h.1, h.2, extractFieldDyn_found, Bool.or_assoc]

/-- C4, amended: the append guard of both walkers is "some field's
selector matched at least one element", not "some field's value is
non-null" — a matched element with only whitespace text still sets the
guard while its field is null, so a fully-null record can be
appended. -/
theorem claim_C4_amended (page : StaticPage) (selectors : List (String × String))
    (w : DynWorld) (st : Nat) :
    (staticExtractRecord page selectors).2
      = selectors.any (fun p => !(page.select p.2).isEmpty)
    ∧ (dynExtractRecord w st selectors).2
      = selectors.any (fun p =>
          !(p.1 = "color_variation" || p.1 = "size_variation")
          && !(w.findElements st p.2).isEmpty) := by
  constructor
  · have h := staticExtract_found_aux page selectors ([], false)
    simpa [staticExtractRecord] using h
  · have h := dynExtract_found_aux w st selectors ([], false)
    simpa [dynExtractRecord] using h

/-- C4, counterexample: a page whose only selector matches one
whitespace-only element makes the static walker append a record whose
every field is null. -/
theorem claim_C4_counterexample :
    scrape_static envC4 "https://x.test" [("title", "h1")] none 1
      = [[("title", Value.null)]]
    ∧ recordAllNull [("title", Value.null)] = true := by
  exact ⟨by decide, by decide⟩

/-- C5: the code evaluated at the claimed scenario.  On a dynamic page
whose trigger selectors match 2 color and 3 size elements, where the
base extraction finds data and every click-and-wait succeeds (which,
under the staleness-only wait the source builds, means each clicked
element is stale afterwards), the first variation record's live label
read at scraper.py line 151 raises `StaleElementReferenceException`;
the error escapes the page body and `scrape_dynamic` re-raises it after
`driver.quit()`, so the walker emits no record sequence at all instead
of the claimed 1 base + 2*3 variation records. -/
theorem claim_C5_code_eval :
    (wC5.findElements 0 ".col").length = 2
    ∧ (wC5.findElements 0 ".siz").length = 3
    ∧ (dynExtractRecord wC5 0 selsC5).2 = true
    ∧ clickAndWait wC5 0 ⟨"Red", none⟩ = ClickWaitRes.ok 0
    ∧ scrapeDynamicPage wC5 0 selsC5 = Except.error PyErr.staleElementError
    ∧ (scrape_dynamic wC5 "https://d.test" selsC5 none 5 "chrome").result
        = Except.error PyErr.staleElementError
    ∧ (scrape_dynamic wC5 "https://d.test" selsC5 none 5 "chrome").events
        = [DrvEvent.acquire, DrvEvent.quitDriver] := by
  exact ⟨rfl, rfl, rfl, rfl, rfl, rfl, rfl⟩

lemma apiGo_success (env : ApiEnv) (url : String) (jp : List String)
    (headers : List (String × String)) (retries attempt r : Nat) (sleeps : List Nat)
    (logs : List ApiLog) (made : Nat) (body : Json)
    (hA : env.attempt url headers attempt = ApiAttempt.success body) :
    apiGo env url jp headers retries attempt (r + 1) sleeps logs made
      = (match descendPath body jp with
         | Except.error e => ⟨Except.error e, made + 1, sleeps, logs⟩
         | Except.ok data =>
             ⟨Except.ok (some (wrapApiData data)), made + 1, sleeps,
              logs ++ [ApiLog.infoSuccess]⟩) := by
  unfold apiGo
  rw [hA]

lemma apiGo_fail_last (env : ApiEnv) (url : String) (jp : List String)
    (headers : List (String × String)) (retries attempt r : Nat) (sleeps : List Nat)
    (logs : List ApiLog) (made : Nat)
    (hA : env.attempt url headers attempt = ApiAttempt.reqFail)
    (h : attempt = retries - 1) :
    apiGo env url jp headers retries attempt (r + 1) sleeps logs made
      = ⟨Except.ok none, made + 1, sleeps,
         (logs ++ [ApiLog.warnAttemptFailed attempt]) ++ [ApiLog.errorExhausted]⟩ := by
  unfold apiGo
  rw [hA]
  show (if attempt = retries - 1 then
          (⟨Except.ok none, made + 1, sleeps,
            (logs ++ [ApiLog.warnAttemptFailed attempt]) ++ [ApiLog.errorExhausted]⟩ : ApiRun)
        else apiGo env url jp headers retries (attempt + 1) r (sleeps ++ [2])
          (logs ++ [ApiLog.warnAttemptFailed attempt]) (made + 1)) = _
  rw [if_pos h]

lemma apiGo_fail_cont (env : ApiEnv) (url : String) (jp : List String)
    (headers : List (String × String)) (retries attempt r : Nat) (sleeps : List Nat)
    (logs : List ApiLog) (made : Nat)
    (hA : env.attempt url headers attempt = ApiAttempt.reqFail)
    (h : ¬(attempt = retries - 1)) :
    apiGo env url jp headers retries attempt (r + 1) sleeps logs made
      = apiGo env url jp headers retries (attempt + 1) r (sleeps ++ [2])
          (logs ++ [ApiLog.warnAttemptFailed attempt]) (made + 1) := by
  unfold apiGo
  rw [hA]
  show (if attempt = retries - 1 then
          (⟨Except.ok none, made + 1, sleeps,
            (logs ++ [ApiLog.warnAttemptFailed attempt]) ++ [ApiLog.errorExhausted]⟩ : ApiRun)
        else apiGo env url jp headers retries (attempt + 1) r (sleeps ++ [2])
          (logs ++ [ApiLog.warnAttemptFailed attempt]) (made + 1)) = _
  rw [if_neg h]
  rw [← apiGo.eq_def]

lemma apiGo_attempts_le (env : ApiEnv) (url : String) (jp : List String)
    (headers : List (String × String)) (retries : Nat) :
    ∀ (rem attempt : Nat) (sleeps : List Nat) (logs : List ApiLog) (made : Nat),
      (apiGo env url jp headers retries attempt rem sleeps logs made).attemptsMade
        ≤ made + rem := by
  intro rem
  induction rem with
  | zero => intro attempt sleeps logs made; simp [apiGo]
  | succ r ih =>
    intro attempt sleeps logs made
    cases hA : env.attempt url headers attempt with
    | success body =>
      rw [apiGo_success env url jp headers retries attempt r sleeps logs made body hA]
      cases hd : descendPath body jp with
      | error e =>
        show made + 1 ≤ made + (r + 1)
        omega
      | ok data =>
        show made + 1 ≤ made + (r + 1)
        omega
    | reqFail =>
      by_cases h : attempt = retries - 1
      · rw [apiGo_fail_last env url jp headers retries attempt r sleeps logs made hA h]
        show made + 1 ≤ made + (r + 1)
        omega
      · rw [apiGo_fail_cont env url jp headers retries attempt r sleeps logs made hA h]
        have := ih (attempt + 1) (sleeps ++ [2]) (logs ++ [ApiLog.warnAttemptFailed attempt]) (made + 1)
        omega

lemma apiGo_sleeps_fixed (env : ApiEnv) (url : String) (jp : List String)
    (headers : List (String × String)) (retries : Nat) :
    ∀ (rem attempt : Nat) (sleeps : List Nat) (logs : List ApiLog) (made : Nat),
      (∀ d ∈ sleeps, d = 2) →
      ∀ d ∈ (apiGo env url jp headers retries attempt rem sleeps logs made).sleeps, d = 2 := by
  intro rem
  induction rem with
  | zero => intro attempt sleeps logs made hs; simpa [apiGo] using hs
  | succ r ih =>
    intro attempt sleeps logs made hs
    cases hA : env.attempt url headers attempt with
    | success body =>
      rw [apiGo_success env url jp headers retries attempt r sleeps logs made body hA]
      cases hd : descendPath body jp with
      | error e => exact hs
      | ok data => exact hs
    | reqFail =>
      by_cases h : attempt = retries - 1
      · rw [apiGo_fail_last env url jp headers retries attempt r sleeps logs made hA h]
        exact hs
      · rw [apiGo_fail_cont env url jp headers retries attempt r sleeps logs made hA h]
        refine ih (attempt + 1) (sleeps ++ [2]) _ (made + 1) ?_
        intro d hd
        rcases List.mem_append.mp hd with hd | hd
        · exact hs d hd
        · simpa using hd

lemma apiGo_all_fail (env : ApiEnv) (url : String) (jp : List String)
    (headers : List (String × String)) (retries : Nat)
    (hfail : ∀ i, i < retries → env.attempt url headers i = ApiAttempt.reqFail) :
    ∀ (rem attempt : Nat) (sleeps : List Nat) (logs : List ApiLog) (made : Nat),
      attempt + rem = retries → 1 ≤ rem →
      (apiGo env url jp headers retries attempt rem sleeps logs made).result = Except.ok none
      ∧ (apiGo env url jp headers retries attempt rem sleeps logs made).attemptsMade
          = made + rem
      ∧ (apiGo env url jp headers retries attempt rem sleeps logs made).sleeps
          = sleeps ++ List.replicate (rem - 1) 2 := by
  intro rem
  induction rem with
  | zero => intro attempt sleeps logs made _ h1; omega
  | succ r ih =>
    intro attempt sleeps logs made hsum _
    have hflt : attempt < retries := by omega
    by_cases hlast : attempt = retries - 1
    · have hr : r = 0 := by omega
      subst hr
      rw [apiGo_fail_last env url jp headers retries attempt 0 sleeps logs made
        (hfail attempt hflt) hlast]
      refine ⟨rfl, rfl, by simp⟩
    · have hr : 1 ≤ r := by omega
      rw [apiGo_fail_cont env url jp headers retries attempt r sleeps logs made
        (hfail attempt hflt) hlast]
      obtain ⟨h1, h2, h3⟩ := ih (attempt + 1) (sleeps ++ [2])
        (logs ++ [ApiLog.warnAttemptFailed attempt]) (made + 1) (by omega) hr
      refine ⟨h1, by omega, ?_⟩
      rw [h3]
      rw [show r + 1 - 1 = (r - 1) + 1 by omega, List.replicate_succ]
      simp [List.append_assoc]

lemma apiGo_first_success (env : ApiEnv) (url : String) (jp : List String)
    (headers : List (String × String)) (retries k : Nat) (body : Json)
    (hkfail : ∀ i, i < k → env.attempt url headers i = ApiAttempt.reqFail)
    (hk : env.attempt url headers k = ApiAttempt.success body) (hklt : k < retries) :
    ∀ (rem attempt : Nat) (sleeps : List Nat) (logs : List ApiLog) (made : Nat),
      attempt + rem = retries → attempt ≤ k →
      (apiGo env url jp headers retries attempt rem sleeps logs made).result
        = Except.map (fun d => some (wrapApiData d)) (descendPath body jp)
      ∧ (apiGo env url jp headers retries attempt rem sleeps logs made).attemptsMade
          = made + (k - attempt) + 1
      ∧ (apiGo env url jp headers retries attempt rem sleeps logs made).sleeps
          = sleeps ++ List.replicate (k - attempt) 2 := by
  intro rem
  induction rem with
  | zero => intro attempt sleeps logs made hsum hle; omega
  | succ r ih =>
    intro attempt sleeps logs made hsum hle
    by_cases hak : attempt = k
    · subst hak
      rw [apiGo_success env url jp headers retries attempt r sleeps logs made body hk]
      cases hd : descendPath body jp with
      | error e =>
        refine ⟨rfl, ?_, ?_⟩
        · show made + 1 = made + (attempt - attempt) + 1
          omega
        · show sleeps = sleeps ++ List.replicate (attempt - attempt) 2
          rw [show attempt - attempt = 0 by omega]
          simp
      | ok data =>
        refine ⟨rfl, ?_, ?_⟩
        · show made + 1 = made + (attempt - attempt) + 1
          omega
        · show sleeps = sleeps ++ List.replicate (attempt - attempt) 2
          rw [show attempt - attempt = 0 by omega]
          simp
    · have haklt : attempt < k := by omega
      have hlast : ¬(attempt = retries - 1) := by omega
      rw [apiGo_fail_cont env url jp headers retries attempt r sleeps logs made
        (hkfail attempt haklt) hlast]
      obtain ⟨h1, h2, h3⟩ := ih (attempt + 1) (sleeps ++ [2])
        (logs ++ [ApiLog.warnAttemptFailed attempt]) (made + 1) (by omega) (by omega)
      refine ⟨h1, by omega, ?_⟩
      rw [h3]
      rw [show k - attempt = (k - (attempt + 1)) + 1 by omega, List.replicate_succ]
      simp [List.append_assoc]

/-- C6: for every retry budget, `scrape_api` performs at most
`retries` HTTP attempts; every backoff slept is the fixed duration 2;
when every attempt fails it makes exactly `retries` attempts, sleeps
`retries - 1` fixed backoffs and returns none; when the first success
is attempt `k` it stops after exactly `k + 1` attempts. -/
theorem claim_C6 (env : ApiEnv) (url : String) (jp : List String)
    (headers : List (String × String)) (retries : Int) :
    (scrape_api env url jp headers retries).attemptsMade ≤ retries.toNat
    ∧ (∀ d ∈ (scrape_api env url jp headers retries).sleeps, d = 2)
    ∧ ((∀ i, i < retries.toNat → env.attempt url headers i = ApiAttempt.reqFail) →
        (scrape_api env url jp headers retries).result = Except.ok none
        ∧ (scrape_api env url jp headers retries).attemptsMade = retries.toNat
        ∧ (scrape_api env url jp headers retries).sleeps
            = List.replicate (retries.toNat - 1) 2)
    ∧ (∀ k body, k < retries.toNat →
        (∀ i, i < k → env.attempt url headers i = ApiAttempt.reqFail) →
        env.attempt url headers k = ApiAttempt.success body →
        (scrape_api env url jp headers retries).result
          = Except.map (fun d => some (wrapApiData d)) (descendPath body jp)
        ∧ (scrape_api env url jp headers retries).attemptsMade = k + 1
        ∧ (scrape_api env url jp headers retries).sleeps = List.replicate k 2) := by
  refine ⟨?_, ?_, ?_, ?_⟩
  · have h := apiGo_attempts_le env url jp headers retries.toNat retries.toNat 0 [] [] 0
    simpa [scrape_api] using h
  · have h := apiGo_sleeps_fixed env url jp headers retries.toNat retries.toNat 0 [] [] 0
      (by simp)
    simpa [scrape_api] using h
  · intro hfail
    cases hz : retries.toNat with
    | zero =>
      refine ⟨?_, ?_, ?_⟩ <;> simp [scrape_api, hz, apiGo]
    | succ n =>
      obtain ⟨h1, h2, h3⟩ := apiGo_all_fail env url jp headers retries.toNat hfail
        retries.toNat 0 [] [] 0 (by omega) (by omega)
      refine ⟨?_, ?_, ?_⟩
      · exact h1
      · show (apiGo env url jp headers retries.toNat 0 retries.toNat [] [] 0).attemptsMade
          = n + 1
        omega
      · show (apiGo env url jp headers retries.toNat 0 retries.toNat [] [] 0).sleeps
          = List.replicate (n + 1 - 1) 2
        rw [h3, hz]
        simp
  · intro k body hklt hkfail hk
    obtain ⟨h1, h2, h3⟩ := apiGo_first_success env url jp headers retries.toNat k body
      hkfail hk hklt retries.toNat 0 [] [] 0 (by omega) (by omega)
    exact ⟨h1, by simpa using h2, by simpa using h3⟩

/-- C6, witness: with 3 retries an always-failing endpoint is attempted
exactly 3 times with two fixed sleeps of 2 and returns none, while an
endpoint succeeding on attempt 1 stops after 2 attempts and 1 sleep. -/
theorem claim_C6_witness :
    (scrape_api aenvC6fail "https://api.test" [] [] 3).result = Except.ok none
    ∧ (scrape_api aenvC6fail "https://api.test" [] [] 3).attemptsMade = 3
    ∧ (scrape_api aenvC6fail "https://api.test" [] [] 3).sleeps = [2, 2]
    ∧ (scrape_api aenvC6succ "https://api.test" [] [] 3).attemptsMade = 2
    ∧ (scrape_api aenvC6succ "https://api.test" [] [] 3).sleeps = [2] := by
  have hf := (claim_C6 aenvC6fail "https://api.test" [] [] 3).2.2.1 (fun i _ => rfl)
  have hs := (claim_C6 aenvC6succ "https://api.test" [] [] 3).2.2.2 1 (Json.dict [])
    (by omega)
    (fun i hi => by
      have hi0 : i = 0 := by omega
      subst hi0
      rfl)
    rfl
  exact ⟨hf.1, hf.2.1, hf.2.2, hs.2.1, hs.2.2⟩

/-- C9: a retry budget of zero or a negative count returns none without
any HTTP attempt, any sleep or any log call. -/
theorem claim_C9 (env : ApiEnv) (url : String) (jp : List String)
    (headers : List (String × String)) (retries : Int) (hr : retries ≤ 0) :
    (scrape_api env url jp headers retries).result = Except.ok none
    ∧ (scrape_api env url jp headers retries).attemptsMade = 0
    ∧ (scrape_api env url jp headers retries).sleeps = []
    ∧ (scrape_api env url jp headers retries).logs = [] := by
  have hz : retries.toNat = 0 := Int.toNat_of_nonpos hr
  refine ⟨?_, ?_, ?_, ?_⟩ <;> simp [scrape_api, hz, apiGo]

/-- C9, witness: the zero/negative-retries behaviour at `retries = -1`. -/
theorem claim_C9_witness :
    (scrape_api aenvC9 "https://api.test" ["k"] [] (-1)).result = Except.ok none
    ∧ (scrape_api aenvC9 "https://api.test" ["k"] [] (-1)).attemptsMade = 0
    ∧ (scrape_api aenvC9 "https://api.test" ["k"] [] (-1)).sleeps = []
    ∧ (scrape_api aenvC9 "https://api.test" ["k"] [] (-1)).logs = [] := by
  exact claim_C9 aenvC9 "https://api.test" ["k"] [] (-1) (by omega)

lemma scrape_staticGo_pages_le (env : StaticEnv) (url : String)
    (selectors : List (String × String)) (pag : Option String) :
    ∀ (fuel : Nat) (cur : Option String) (acc : List Record) (pages : Nat),
      (scrape_staticGo env url selectors pag cur fuel acc pages).pages_scraped
        ≤ pages + fuel := by
  intro fuel
  induction fuel with
  | zero =>
    intro cur acc pages
    cases cur <;> simp [scrape_staticGo]
  | succ f ih =>
    intro cur acc pages
    cases cur with
    | none => simp [scrape_staticGo]
    | some u =>
      unfold scrape_staticGo
      cases hf : env.fetch u with
      | none =>
        show pages ≤ pages + (f + 1)
        omega
      | some page =>
        have := ih (staticNextUrl env url pag page)
          (if (staticExtractRecord page selectors).2 then acc ++ [(staticExtractRecord page selectors).1] else acc)
          (pages + 1)
        show (scrape_staticGo env url selectors pag (staticNextUrl env url pag page) f
          (if (staticExtractRecord page selectors).2
           then acc ++ [(staticExtractRecord page selectors).1] else acc)
          (pages + 1)).pages_scraped ≤ pages + (f + 1)
        omega

lemma dynLoop_pages_le (w : DynWorld) (selectors : List (String × String))
    (pag : Option String) :
    ∀ (fuel : Nat) (cur : Option String) (acc : List Record) (pages : Nat),
      (dynLoop w selectors pag fuel cur acc pages).pages ≤ pages + fuel := by
  intro fuel
  induction fuel with
  | zero =>
    intro cur acc pages
    simp [dynLoop]
  | succ f ih =>
    intro cur acc pages
    cases cur with
    | none => simp [dynLoop]
    | some u =>
      unfold dynLoop
      cases hn : w.navigate u with
      | none =>
        show pages ≤ pages + (f + 1)
        omega
      | some st =>
        show (if (w.findElements st ready_marker).isEmpty = true
              then (⟨Except.ok acc, pages⟩ : DynLoopOut)
              else
                match scrapeDynamicPage w st selectors with
                | Except.error e => ⟨Except.error e, pages⟩
                | Except.ok pout =>
                  dynLoop w selectors pag f (dynNextUrl w pout.1 pag u).1
                    (acc ++ pout.2) (pages + 1)).pages
          ≤ pages + (f + 1)
        by_cases hr : (w.findElements st ready_marker).isEmpty
        · rw [if_pos hr]
          show pages ≤ pages + (f + 1)
          omega
        · rw [if_neg hr]
          cases hpb : scrapeDynamicPage w st selectors with
          | error e =>
            show pages ≤ pages + (f + 1)
            omega
          | ok pout =>
            have := ih (dynNextUrl w pout.1 pag u).1 (acc ++ pout.2) (pages + 1)
            show (dynLoop w selectors pag f (dynNextUrl w pout.1 pag u).1
              (acc ++ pout.2) (pages + 1)).pages ≤ pages + (f + 1)
            omega

/-- C7: both walkers perform at most `limit` loop iterations (pages),
stopping at the fuel bound even when a next link or trigger exists;
when a fetched page's body completes and yields no next url (no
pagination selector configured, or no matching next element) they stop
right after that page; and a dynamic page body whose uncaught label
read raises ends the walk at once with that error, before the counter
is incremented. -/
theorem claim_C7 (env : StaticEnv) (w : DynWorld) (url : String)
    (selectors : List (String × String)) (pag : Option String) (limit : Int) :
    (scrape_staticGo env url selectors pag (some url) limit.toNat [] 0).pages_scraped
      ≤ limit.toNat
    ∧ (dynLoop w selectors pag limit.toNat (some url) [] 0).pages ≤ limit.toNat
    ∧ (∀ (u : String) (page : StaticPage) (fuel : Nat) (acc : List Record) (pages : Nat),
        env.fetch u = some page → staticNextUrl env url pag page = none →
        (scrape_staticGo env url selectors pag (some u) (fuel + 1) acc pages).pages_scraped
          = pages + 1)
    ∧ (∀ (u : String) (st : Nat) (fuel : Nat) (acc : List Record) (pages : Nat)
        (pr : Nat × List Record),
        w.navigate u = some st → (w.findElements st ready_marker).isEmpty = false →
        scrapeDynamicPage w st selectors = Except.ok pr →
        (dynNextUrl w pr.1 pag u).1 = none →
        (dynLoop w selectors pag (fuel + 1) (some u) acc pages).pages = pages + 1)
    ∧ (∀ (u : String) (st : Nat) (fuel : Nat) (acc : List Record) (pages : Nat) (e : PyErr),
        w.navigate u = some st → (w.findElements st ready_marker).isEmpty = false →
        scrapeDynamicPage w st selectors = Except.error e →
        dynLoop w selectors pag (fuel + 1) (some u) acc pages
          = ⟨Except.error e, pages⟩) := by
  refine ⟨?_, ?_, ?_, ?_, ?_⟩
  · have := scrape_staticGo_pages_le env url selectors pag limit.toNat (some url) [] 0
    omega
  · have := dynLoop_pages_le w selectors pag limit.toNat (some url) [] 0
    omega
  · intro u page fuel acc pages hf hnext
    unfold scrape_staticGo
    rw [hf]
    show (scrape_staticGo env url selectors pag (staticNextUrl env url pag page) fuel
      (if (staticExtractRecord page selectors).2
       then acc ++ [(staticExtractRecord page selectors).1] else acc)
      (pages + 1)).pages_scraped = pages + 1
    rw [hnext]
    cases fuel <;> rfl
  · intro u st fuel acc pages pr hn hr hpb hnext
    unfold dynLoop
    rw [hn]
    show (if (w.findElements st ready_marker).isEmpty = true
          then (⟨Except.ok acc, pages⟩ : DynLoopOut)
          else
            match scrapeDynamicPage w st selectors with
            | Except.error e => ⟨Except.error e, pages⟩
            | Except.ok pout =>
              dynLoop w selectors pag fuel (dynNextUrl w pout.1 pag u).1
                (acc ++ pout.2) (pages + 1)).pages
      = pages + 1
    rw [hr, hpb]
    show (dynLoop w selectors pag fuel (dynNextUrl w pr.1 pag u).1
      (acc ++ pr.2) (pages + 1)).pages = pages + 1
    rw [hnext]
    cases fuel <;> rfl
  · intro u st fuel acc pages e hn hr hpb
    unfold dynLoop
    rw [hn]
    show (if (w.findElements st ready_marker).isEmpty = true
          then (⟨Except.ok acc, pages⟩ : DynLoopOut)
          else
            match scrapeDynamicPage w st selectors with
            | Except.error e2 => ⟨Except.error e2, pages⟩
            | Except.ok pout =>
              dynLoop w selectors pag fuel (dynNextUrl w pout.1 pag u).1
                (acc ++ pout.2) (pages + 1))
      = ⟨Except.error e, pages⟩
    rw [hr, hpb]
    rfl

/-- C7, witness: with limit 2 the static walk stops within 2 pages; a
page with no next link stops the static walk after one page; a dynamic
page with no pagination selector stops the dynamic walk after one
page. -/
theorem claim_C7_witness :
    (scrape_staticGo senvC7 "https://x.test/p1" selsC7 none (some "https://x.test/p1") 2 [] 0).pages_scraped ≤ 2
    ∧ (scrape_staticGo senvC7 "https://x.test/p1" selsC7 none (some "https://x.test/p1") 3 [] 0).pages_scraped = 0 + 1
    ∧ (dynLoop wC7 selsC7 none 5 (some "https://x.test/p1") [] 0).pages = 0 + 1 := by
  have h := claim_C7 senvC7 wC7 "https://x.test/p1" selsC7 none 2
  refine ⟨by simpa using h.1, ?_, ?_⟩
  · exact h.2.2.1 "https://x.test/p1" pageC7 2 [] 0 rfl rfl
  · exact h.2.2.2.1 "https://x.test/p1" 0 4 [] 0 (0, []) rfl (by decide) rfl rfl

/-- C8: the driver-quit event is recorded exactly when the driver was
acquired — on every exit path of the page-walk loop (normal completion,
ready-timeout break, or an escaping exception), because the loop runs
inside `try ... finally: driver.quit()`. -/
theorem claim_C8 (w : DynWorld) (url : String) (selectors : List (String × String))
    (pag : Option String) (limit : Int) (browser : String) :
    (DrvEvent.acquire ∈ (scrape_dynamic w url selectors pag limit browser).events
      ↔ get_driver w browser = Except.ok ())
    ∧ (DrvEvent.acquire ∈ (scrape_dynamic w url selectors pag limit browser).events →
        DrvEvent.quitDriver ∈ (scrape_dynamic w url selectors pag limit browser).events) := by
  cases hg : get_driver w browser with
  | error e => simp [scrape_dynamic, hg]
  | ok u =>
    cases u
    simp [scrape_dynamic, hg]

/-- C8, witness: a world whose navigation raises — the loop exits
exceptionally, and the quit event is still recorded after acquire. -/
theorem claim_C8_witness :
    (scrape_dynamic wC8 "https://d.test" [] none 1 "chrome").result
      = Except.error PyErr.navigateError
    ∧ DrvEvent.acquire ∈ (scrape_dynamic wC8 "https://d.test" [] none 1 "chrome").events
    ∧ DrvEvent.quitDriver ∈ (scrape_dynamic wC8 "https://d.test" [] none 1 "chrome").events := by
  have hacq : DrvEvent.acquire ∈ (scrape_dynamic wC8 "https://d.test" [] none 1 "chrome").events := by
    rw [show (scrape_dynamic wC8 "https://d.test" [] none 1 "chrome").events
      = [DrvEvent.acquire, DrvEvent.quitDriver] from rfl]
    simp
  exact ⟨rfl, hacq, (claim_C8 wC8 "https://d.test" [] none 1 "chrome").2 hacq⟩

/-- C1, amended: the orchestrator loop skips (and continues past) only
sites failing the required-key validation or carrying an unknown type;
any exception a site's scrape raises — in particular a
browser-session-initialization failure for a dynamic site — propagates
out of the loop and aborts the run, leaving the remaining sites
unprocessed. -/
lemma run_sites_cons (w : DynWorld) (senv : StaticEnv) (aenv : ApiEnv)
    (site : Site) (rest : List Site) :
    run_sites w senv aenv (site :: rest)
      = (match processSite w senv aenv site with
         | Except.error e => Except.error e
         | Except.ok o =>
           match run_sites w senv aenv rest with
           | Except.error e => Except.error e
           | Except.ok os => Except.ok (o :: os)) := rfl

theorem claim_C1_amended (w : DynWorld) (senv : StaticEnv) (aenv : ApiEnv)
    (site : Site) (rest : List Site) :
    (∀ e, processSite w senv aenv site = Except.error e →
      run_sites w senv aenv (site :: rest) = Except.error e)
    ∧ (requiredKeysOk site = false →
      run_sites w senv aenv (site :: rest)
        = Except.map (fun outs => SiteOutcome.invalidConfig :: outs)
            (run_sites w senv aenv rest))
    ∧ (∀ e (u : String) (sels : List (String × String)),
        site.url = some u → site.type = some "dynamic" → site.selectors = some sels →
        get_driver w (site.browser.getD "chrome") = Except.error e →
        run_sites w senv aenv (site :: rest) = Except.error e) := by
  have hprop : ∀ e, processSite w senv aenv site = Except.error e →
      run_sites w senv aenv (site :: rest) = Except.error e := by
    intro e he
    unfold run_sites
    rw [he]
  refine ⟨hprop, ?_, ?_⟩
  · intro hreq
    have hp : processSite w senv aenv site = Except.ok SiteOutcome.invalidConfig := by
      unfold processSite
      cases hu : site.url with
      | none => rfl
      | some u =>
        cases ht : site.type with
        | none => rfl
        | some ty =>
          cases hsl : site.selectors with
          | none => rfl
          | some sels =>
            exfalso
            simp [requiredKeysOk, hu, ht, hsl] at hreq
    rw [run_sites_cons, hp]
    cases hr : run_sites w senv aenv rest <;> rfl
  · intro e u sels hu ht hsl hgd
    refine hprop e ?_
    simp only [processSite, hu, ht, hsl]
    simp only [scrape_dynamic, hgd]
    rfl

/-- C1, counterexample: a dynamic site whose browser fails to
initialize aborts the whole run with an escaping error — the following
static site, which on its own scrapes fine, is never processed. -/
theorem claim_C1_counterexample :
    run_sites wC1 senvC1 aenvC1 [dynSiteC1, statSiteC1]
      = Except.error PyErr.webDriverInitError
    ∧ run_sites wC1 senvC1 aenvC1 [statSiteC1]
      = Except.ok [SiteOutcome.wrote [[("title", Value.str "A")]]] := by
  exact ⟨rfl, rfl⟩

/-- C1, witness: the amended statement at a concrete failing dynamic
site and at a site missing its required keys. -/
theorem claim_C1_witness :
    run_sites wC1 senvC1 aenvC1 [dynSiteC1] = Except.error PyErr.webDriverInitError
    ∧ run_sites wC1 senvC1 aenvC1 [invalidSiteC1]
      = Except.map (fun outs => SiteOutcome.invalidConfig :: outs)
          (run_sites wC1 senvC1 aenvC1 []) := by
  have h1 := (claim_C1_amended wC1 senvC1 aenvC1 dynSiteC1 []).2.2
    PyErr.webDriverInitError "https://d.test" [] rfl rfl rfl rfl
  have h2 := (claim_C1_amended wC1 senvC1 aenvC1 invalidSiteC1 []).2.1 rfl
  exact ⟨h1, h2⟩

/-- C10: the required-key validation checks only `url`, `type` and
`selectors`, so a `type: api` site without `json_path` passes it; the
unconditional `site["json_path"]` access then raises `KeyError` inside
the orchestrator loop instead of the site being skipped. -/
theorem claim_C10 (w : DynWorld) (senv : StaticEnv) (aenv : ApiEnv) (site : Site)
    (u : String) (sels : List (String × String))
    (hu : site.url = some u) (ht : site.type = some "api")
    (hsl : site.selectors = some sels) (hj : site.json_path = none) :
    requiredKeysOk site = true
    ∧ processSite w senv aenv site = Except.error PyErr.keyErrorJsonPath := by
  constructor
  · simp [requiredKeysOk, hu, ht, hsl]
  · simp [processSite, hu, ht, hsl, hj]

/-- C10, witness: a concrete api site with `url`, `type`, `selectors`
and an `api_key` but no `json_path`. -/
theorem claim_C10_witness :
    requiredKeysOk siteC10 = true
    ∧ processSite wC10 senvC10 aenvC10 siteC10 = Except.error PyErr.keyErrorJsonPath :=
  claim_C10 wC10 senvC10 aenvC10 siteC10 "https://a.test" [] rfl rfl rfl rfl
